import Mathlib

/-!
# Verification of the number-seeker game client

A shallow embedding of the core logic of `GameApp` (the single component of
the repository): the chain-refresh routine `refreshPlayerData`, the
authenticated decryption routine `decryptCiphertext`, and the two
transaction handlers `handleJoin` / `handleGuess`, together with the
button-level gating through which the handlers are invoked.

React `useState` fields become a record `AppState`; every external outcome
(wallet presence, contract configuration, read results, signer resolution,
decryption-authority response, transaction fate) is an explicit environment
record, and each operation is a pure function
`Env → AppState → AppState × List Effect`, where the `Effect` list records
the network interactions the operation performed, in order.

JavaScript `Number(string)` conversion is modelled exactly over ℚ
(`jsStringToNumber`); the non-finite results `NaN` and `±Infinity` are both
mapped to `none`, which is observationally faithful here because the code
only ever consumes a converted number through `Number.isInteger` (false for
all non-finite values) and through its integral value.
-/

namespace NumberSeeker

/-- The all-zero sentinel handle (source line 12). -/
def ZERO_CIPHERTEXT : String :=
  "0x0000000000000000000000000000000000000000000000000000000000000000"

/-- Network interactions an operation can perform, in order of occurrence. -/
inductive Effect where
  | readCall          -- a `publicClient.readContract` view call
  | notifyReady       -- the "result ready" status notification inside refresh
  | signRequest       -- `signTypedData` request to the wallet
  | authorityRequest  -- `instance.userDecrypt` call to the decryption authority
  | encryptCall       -- `createEncryptedInput(...).encrypt()` call
  | joinTx            -- `contract.joinGame()` transaction submission
  | guessTx           -- `contract.submitGuess(...)` transaction submission
deriving DecidableEq

/-- The `useState` fields of `GameApp` (source lines 37-46).
`guessValue` is the raw text of the number input. -/
structure AppState where
  hasJoined : Bool
  round : Nat
  guessValue : String
  encryptedResult : Option String
  lastDecryptedCipher : Option String
  feedbackCode : Option Int
  isJoining : Bool
  isGuessing : Bool
  isDecrypting : Bool
  statusMessage : Option String
deriving DecidableEq

/-! ## Status-message constants (verbatim from the source) -/

def readyMsg : String := "🔐 Encrypted result ready. Click decrypt to reveal feedback."
def decryptInitMsg : String := "🔓 Initiating decryption sequence..."
def decryptOkMsg : String := "✅ Signal decoded successfully."
def signerMsg : String := "Wallet signer is not available"
def noValueMsg : String := "No decrypted value returned"
def badFormatMsg : String := "Unexpected decrypted format"
def walletJoinMsg : String := "⚠️ Wallet connection required to proceed."
def walletGuessMsg : String := "⚠️ Wallet connection required for probe deployment."
def notConfiguredMsg : String := "⚠️ Contract node address not configured."
def joinInitMsg : String := "🔄 Initializing session protocol..."
def joinOkMsg : String := "✅ Session active. Target encrypted and ready for probing."
def notJoinedMsg : String := "⚠️ Initialize session before deploying probes."
def invalidGuessMsg : String := "❌ Invalid input. Select digit 1-10."
def engineOfflineMsg : String := "⚠️ Cipher engine offline. Please wait."
def guessInitMsg : String := "🔐 Encrypting probe data and transmitting..."
def guessOkMsg : String := "✅ Probe deployed. Decrypt scan results to view analysis."

/-! ## Chain Reader: `refreshPlayerData` (source lines 50-102) -/

/-- Environment of one refresh: whether `publicClient`, `address` and a
configured contract address are present, and the joint outcome of the three
`Promise.all` reads — `none` when any of them rejected, `some (joined,
round, latestResult)` when all succeeded. -/
structure RefreshEnv where
  hasClient : Bool
  hasAddress : Bool
  configured : Bool
  reads : Option (Bool × Nat × String)

/-- `refreshPlayerData`. Without client/address/configuration every session
field is reset (lines 51-58). Otherwise the three reads either all succeed
and are applied — the functional `setEncryptedResult` updater compares the
previous handle, clears feedback on change and notifies when the new handle
is truthy and non-sentinel (lines 82-93), then feedback is force-cleared
when not joined (lines 95-98) — or the failure is only logged (line 100). -/
def refreshPlayerData (env : RefreshEnv) (s : AppState) : AppState × List Effect :=
  if ¬(env.hasClient = true ∧ env.hasAddress = true ∧ env.configured = true) then
    ({ s with hasJoined := false, round := 0, encryptedResult := none,
              feedbackCode := none, lastDecryptedCipher := none }, [])
  else
    match env.reads with
    | none => (s, [.readCall, .readCall, .readCall])
    | some (joined, activeRound, latestResult) =>
      let s1 : AppState := { s with hasJoined := joined, round := activeRound }
      let changed : AppState × List Effect :=
        if s.encryptedResult ≠ some latestResult then
          let s2 : AppState := { s1 with feedbackCode := none, lastDecryptedCipher := none,
                                         encryptedResult := some latestResult }
          if latestResult ≠ "" ∧ latestResult ≠ ZERO_CIPHERTEXT then
            ({ s2 with statusMessage := some readyMsg }, [.notifyReady])
          else (s2, [])
        else ({ s1 with encryptedResult := some latestResult }, [])
      let s3 : AppState :=
        if joined = true then changed.1
        else { changed.1 with feedbackCode := none, lastDecryptedCipher := none }
      (s3, [.readCall, .readCall, .readCall] ++ changed.2)

/-! ## JavaScript `Number(string)` over exact rationals

`Number(s)` first strips the string of leading/trailing whitespace; the
empty remainder converts to `0`; otherwise the remainder must be a complete
`StringNumericLiteral` (a signed decimal literal with optional fraction and
exponent, the literal `Infinity`, or an unsigned `0x`/`0o`/`0b` radix
literal), else the result is `NaN`. We compute the exact rational value as
an explicit fraction `JsNum` (numerator over a power-of-ten denominator,
not normalised); `none` stands for every non-finite outcome (`NaN`,
`±Infinity`). This is observationally faithful because the program only
ever consumes a converted number through `Number.isInteger` (false for all
non-finite values) and, when that holds, through its integral value. -/

/-- An exact finite JS number: the fraction `num / den` with `den` a
positive power of ten by construction. -/
structure JsNum where
  num : Int
  den : Nat
deriving DecidableEq

/-- `Number.isInteger` on a finite value. -/
def JsNum.isInt (v : JsNum) : Bool := v.num % (v.den : Int) = 0

/-- The integral value of a `JsNum` (meaningful when `isInt`). -/
def JsNum.toInt (v : JsNum) : Int := v.num / (v.den : Int)

/-- JavaScript whitespace characters recognised by string trimming. -/
def jsIsWhite (c : Char) : Bool :=
  c = ' ' ∨ c = '\t' ∨ c = '\n' ∨ c = '\r' ∨
  c = '\x0b' ∨ c = '\x0c' ∨ c = '\u00A0' ∨ c = '\uFEFF'

/-- Trim JS whitespace from both ends of a character list. -/
def jsTrimChars (l : List Char) : List Char :=
  ((l.dropWhile jsIsWhite).reverse.dropWhile jsIsWhite).reverse

/-- `String.prototype.trim` (used at source line 242). -/
def jsTrim (s : String) : String := String.mk (jsTrimChars s.data)

/-- Digit value of a character in radix `b`, if any. -/
def radixDigit (b : Nat) (c : Char) : Option Nat :=
  let v :=
    if '0' ≤ c ∧ c ≤ '9' then some (c.toNat - '0'.toNat)
    else if 'a' ≤ c ∧ c ≤ 'f' then some (c.toNat - 'a'.toNat + 10)
    else if 'A' ≤ c ∧ c ≤ 'F' then some (c.toNat - 'A'.toNat + 10)
    else none
  match v with
  | some d => if d < b then some d else none
  | none => none

/-- Value of a complete radix literal body (after `0x`/`0o`/`0b`): at least
one digit, all digits valid, nothing else. -/
def radixBody (b : Nat) : List Char → Option Nat
  | [] => none
  | l => l.foldl (fun acc c =>
      match acc, radixDigit b c with
      | some a, some d => some (b * a + d)
      | _, _ => none) (some 0)

/-- Numeric value of a list of decimal digits. -/
def decDigitsVal (l : List Char) : Nat :=
  l.foldl (fun a c => 10 * a + (c.toNat - '0'.toNat)) 0

/-- Parse the optional exponent part (`e`/`E`, optional sign, digits) that
must consume the whole remainder; `some e` is the exponent, `none` = NaN. -/
def expPart : List Char → Option Int
  | [] => some 0
  | c :: r =>
    if c = 'e' ∨ c = 'E' then
      let p : Int × List Char :=
        match r with
        | '+' :: t => (1, t)
        | '-' :: t => (-1, t)
        | t => (1, t)
      match p.2 with
      | [] => none
      | ds => if ds.all Char.isDigit then some (p.1 * decDigitsVal ds) else none
    else none

/-- The fraction `(intPart.fracPart) × 10 ^ e` as a `JsNum`. -/
def decFraction (ip fp : List Char) (e : Int) : JsNum :=
  let base : Nat := decDigitsVal ip * 10 ^ fp.length + decDigitsVal fp
  if 0 ≤ e then ⟨(base * 10 ^ e.toNat : Nat), 10 ^ fp.length⟩
  else ⟨(base : Nat), 10 ^ fp.length * 10 ^ (-e).toNat⟩

/-- Parse an unsigned `StrUnsignedDecimalLiteral` occupying the whole list:
`Infinity`, or digits with optional `.`-fraction and optional exponent.
`none` for NaN and for `Infinity`. -/
def unsignedDecValue (l : List Char) : Option JsNum :=
  if l = "Infinity".data then none
  else
    let (ip, r1) := l.span Char.isDigit
    match r1 with
    | '.' :: r2 =>
      let (fp, r3) := r2.span Char.isDigit
      if ip = [] ∧ fp = [] then none
      else (expPart r3).map (decFraction ip fp)
    | _ =>
      if ip = [] then none
      else (expPart r1).map (decFraction ip [])

/-- Parse a `StrDecimalLiteral`: optional sign, then an unsigned literal. -/
def signedDecValue : List Char → Option JsNum
  | '+' :: r => unsignedDecValue r
  | '-' :: r => (unsignedDecValue r).map (fun v => ⟨-v.num, v.den⟩)
  | l => unsignedDecValue l

/-- `Number(s)` for a string argument, as an exact finite fraction; `none`
is any non-finite result. Radix prefixes admit no sign and no exponent. -/
def jsStringToNumber (s : String) : Option JsNum :=
  match jsTrimChars s.data with
  | [] => some ⟨0, 1⟩
  | '0' :: c :: rest =>
    if c = 'x' ∨ c = 'X' then (radixBody 16 rest).map (fun n => ⟨(n : Int), 1⟩)
    else if c = 'o' ∨ c = 'O' then (radixBody 8 rest).map (fun n => ⟨(n : Int), 1⟩)
    else if c = 'b' ∨ c = 'B' then (radixBody 2 rest).map (fun n => ⟨(n : Int), 1⟩)
    else signedDecValue ('0' :: c :: rest)
  | t => signedDecValue t

/-- `Number(s)` restricted to the integer outcomes: `some n` exactly when
the conversion is finite and `Number.isInteger` holds of it. -/
def jsNumberInt (s : String) : Option Int :=
  match jsStringToNumber s with
  | none => none
  | some v => if v.isInt then some v.toInt else none

/-- The guess validation of source lines 242-246: trim the raw input,
convert with `Number`, require an integer in `[1, 10]`. -/
def guessValid (v : String) : Bool :=
  match jsStringToNumber (jsTrim v) with
  | none => false
  | some q => q.isInt ∧ 1 ≤ q.toInt ∧ q.toInt ≤ 10

example : jsNumberInt "0x7" = some 7 := by decide
example : jsNumberInt "" = some 0 := by decide
example : jsNumberInt " 7 " = some 7 := by decide
example : jsNumberInt "7.0" = some 7 := by decide
example : jsStringToNumber "3.5" = some ⟨35, 10⟩ := by decide
example : jsNumberInt "3.5" = none := by decide
example : jsStringToNumber "abc" = none := by decide
example : jsNumberInt "1e1" = some 10 := by decide
example : jsNumberInt "-2" = some (-2) := by decide
example : jsStringToNumber "+0x7" = none := by decide
example : jsNumberInt ".5" = none := by decide
example : jsNumberInt "5." = some 5 := by decide
example : jsStringToNumber "Infinity" = none := by decide
example : jsNumberInt "0b101" = some 5 := by decide
example : jsNumberInt "0o17" = some 15 := by decide
example : jsNumberInt "08" = some 8 := by decide
example : jsStringToNumber "1e-1" = some ⟨1, 10⟩ := by decide
example : jsStringToNumber "0x" = none := by decide
example : guessValid "7.0" = true := by decide
example : guessValid "" = false := by decide
example : guessValid "11" = false := by decide
example : guessValid "0" = false := by decide
example : guessValid "0x7" = true := by decide
example : guessValid " 7 " = true := by decide

/-! ## Encryption Client: `decryptCiphertext` (source lines 108-173) -/

/-- Environment of one decrypt call: presence of the cipher-engine
`instance`, the `address` and the configured contract; whether the awaited
`signer` resolves to a signer; and the decryption-authority response — a
JS object modelled as an association list in insertion order (`none` is a
nullish response, handled by `response ?? {}`). -/
structure DecryptEnv where
  hasInstance : Bool
  hasAddress : Bool
  configured : Bool
  signerAvailable : Bool
  response : Option (List (String × String))

/-- First value bound to key `k` in a JS-object association list. -/
def objLookup (l : List (String × String)) (k : String) : Option String :=
  (l.find? (fun e => e.1 = k)).map (fun e => e.2)

/-- The extraction of source lines 150-151:
`(response && response[cipher]) || Object.values(response ?? {})[0]`.
A nullish response or a missing key is falsy, as is an empty-string hit;
each falls through to the first value of the object (if any). -/
def extractRaw (response : Option (List (String × String))) (cipher : String) :
    Option String :=
  let values := (response.getD []).map (fun e => e.2)
  match response with
  | none => values.head?
  | some l =>
    match objLookup l cipher with
    | some v => if v ≠ "" then some v else values.head?
    | none => values.head?

/-- The synchronous prefix of a decrypt call that passed both guards
(lines 118-119): raise the busy flag and announce the sequence. -/
def decryptStart (s : AppState) : AppState :=
  { s with isDecrypting := true, statusMessage := some decryptInitMsg }

/-- The body of a decrypt call after its synchronous prefix (lines
121-170): resolve the signer (throwing when absent), sign, query the
authority, extract the raw value — throwing when it is missing or empty
(`!rawValue`) or when it is not an integer — and on success store the
feedback code with its source cipher. Every `throw` is caught at lines
165-167, surfacing `err.message` as the status; the `finally` at line 169
lowers the busy flag on every path. -/
def decryptRest (env : DecryptEnv) (cipher : String) (s : AppState) :
    AppState × List Effect :=
  if ¬env.signerAvailable = true then
    ({ s with statusMessage := some signerMsg, isDecrypting := false }, [])
  else
    let ev : List Effect := [.signRequest, .authorityRequest]
    match extractRaw env.response cipher with
    | none =>
      ({ s with statusMessage := some noValueMsg, isDecrypting := false }, ev)
    | some v =>
      if v = "" then
        ({ s with statusMessage := some noValueMsg, isDecrypting := false }, ev)
      else
        match jsStringToNumber v with
        | none =>
          ({ s with statusMessage := some badFormatMsg, isDecrypting := false }, ev)
        | some q =>
          if q.isInt = true then
            ({ s with feedbackCode := some q.toInt, lastDecryptedCipher := some cipher,
                      statusMessage := some decryptOkMsg, isDecrypting := false }, ev)
          else
            ({ s with statusMessage := some badFormatMsg, isDecrypting := false }, ev)

/-- `decryptCiphertext`. Missing instance/address/configuration returns
silently (lines 110-112); a call while `isDecrypting` returns silently
(lines 114-116); otherwise the synchronous prefix runs and the body
follows. -/
def decryptCiphertext (env : DecryptEnv) (cipher : String) (s : AppState) :
    AppState × List Effect :=
  if ¬(env.hasInstance = true ∧ env.hasAddress = true ∧ env.configured = true) then
    (s, [])
  else if s.isDecrypting = true then
    (s, [])
  else
    decryptRest env cipher (decryptStart s)

/-! ## Transaction Submitter: `handleJoin` (lines 189-224) and
`handleGuess` (lines 226-281) -/

/-- Environment of one join call: wallet/configuration presence, signer
resolution, whether the transaction-submitting call returns (a wallet
rejection throws before anything is sent), whether `tx.wait` confirms, the
`err.message` of a failed submission or confirmation, whether the cipher
engine is still loading (for the button guard), and the environment of the
refresh triggered on success. -/
structure JoinEnv where
  hasAddress : Bool
  configured : Bool
  signerAvailable : Bool
  txSubmits : Bool
  txConfirms : Bool
  errMsg : String
  isZamaLoading : Bool
  refresh : RefreshEnv

/-- The synchronous prefix of a join that passed its guards (lines
200-201). -/
def joinStart (s : AppState) : AppState :=
  { s with isJoining := true, statusMessage := some joinInitMsg }

/-- The body of a join after its prefix (lines 203-223): resolve the
signer, submit `joinGame`, await confirmation; on success announce, clear
feedback and its source record, and await a refresh. Failures are caught
and surfaced as `err.message`; the `finally` lowers the busy flag. -/
def joinRest (env : JoinEnv) (s : AppState) : AppState × List Effect :=
  if ¬env.signerAvailable = true then
    ({ s with statusMessage := some signerMsg, isJoining := false }, [])
  else if ¬env.txSubmits = true then
    ({ s with statusMessage := some env.errMsg, isJoining := false }, [])
  else if ¬env.txConfirms = true then
    ({ s with statusMessage := some env.errMsg, isJoining := false }, [.joinTx])
  else
    let s1 : AppState := { s with statusMessage := some joinOkMsg,
                                  feedbackCode := none, lastDecryptedCipher := none }
    let r := refreshPlayerData env.refresh s1
    ({ r.1 with isJoining := false }, [.joinTx] ++ r.2)

/-- `handleJoin`: the wallet and configuration guards (lines 190-198), then
the prefix and body. The handler itself never consults `isJoining`. -/
def handleJoin (env : JoinEnv) (s : AppState) : AppState × List Effect :=
  if ¬env.hasAddress = true then
    ({ s with statusMessage := some walletJoinMsg }, [])
  else if ¬env.configured = true then
    ({ s with statusMessage := some notConfiguredMsg }, [])
  else
    joinRest env (joinStart s)

/-- Environment of one guess call; fields as for `JoinEnv`, plus the
cipher-engine instance presence and whether client-side encryption
succeeds. -/
structure GuessEnv where
  hasAddress : Bool
  configured : Bool
  hasInstance : Bool
  signerAvailable : Bool
  encryptOk : Bool
  txSubmits : Bool
  txConfirms : Bool
  errMsg : String
  isZamaLoading : Bool
  refresh : RefreshEnv

/-- The synchronous prefix of a guess that passed all five guards (lines
253-254). -/
def guessStart (s : AppState) : AppState :=
  { s with isGuessing := true, statusMessage := some guessInitMsg }

/-- The body of a guess after its prefix (lines 256-280): resolve the
signer, build the encrypted input, submit `submitGuess`, await
confirmation; on success announce, clear the input field and await a
refresh. Failures are caught and surfaced; the `finally` lowers the busy
flag. -/
def guessRest (env : GuessEnv) (s : AppState) : AppState × List Effect :=
  if ¬env.signerAvailable = true then
    ({ s with statusMessage := some signerMsg, isGuessing := false }, [])
  else if ¬env.encryptOk = true then
    ({ s with statusMessage := some env.errMsg, isGuessing := false }, [.encryptCall])
  else if ¬env.txSubmits = true then
    ({ s with statusMessage := some env.errMsg, isGuessing := false }, [.encryptCall])
  else if ¬env.txConfirms = true then
    ({ s with statusMessage := some env.errMsg, isGuessing := false },
     [.encryptCall, .guessTx])
  else
    let s1 : AppState := { s with statusMessage := some guessOkMsg, guessValue := "" }
    let r := refreshPlayerData env.refresh s1
    ({ r.1 with isGuessing := false }, [.encryptCall, .guessTx] ++ r.2)

/-- `handleGuess`: the wallet, configuration, joined, range and engine
guards (lines 227-251) — each failure sets its status and returns before
any network interaction — then the prefix and body. The handler itself
never consults `isGuessing`. -/
def handleGuess (env : GuessEnv) (s : AppState) : AppState × List Effect :=
  if ¬env.hasAddress = true then
    ({ s with statusMessage := some walletGuessMsg }, [])
  else if ¬env.configured = true then
    ({ s with statusMessage := some notConfiguredMsg }, [])
  else if ¬s.hasJoined = true then
    ({ s with statusMessage := some notJoinedMsg }, [])
  else if ¬guessValid s.guessValue = true then
    ({ s with statusMessage := some invalidGuessMsg }, [])
  else if ¬env.hasInstance = true then
    ({ s with statusMessage := some engineOfflineMsg }, [])
  else
    guessRest env (guessStart s)

/-! ## Button gating (source lines 310-317 and 349-356)

`handleJoin` and `handleGuess` have exactly one call site each: the
`onClick` of a button whose `disabled` attribute includes the operation's
busy flag. A user-level invocation of the operation is therefore a click,
which reaches the handler only when the button is enabled. -/

/-- The `disabled` predicate of the join button (line 314). -/
def joinButtonDisabled (env : JoinEnv) (s : AppState) : Bool :=
  s.isJoining ∨ ¬env.hasAddress = true ∨ env.isZamaLoading ∨ ¬env.configured = true

/-- A click on the join button: ignored while disabled. -/
def handleJoinClick (env : JoinEnv) (s : AppState) : AppState × List Effect :=
  if joinButtonDisabled env s = true then (s, []) else handleJoin env s

/-- The `disabled` predicate of the guess button (line 353). -/
def guessButtonDisabled (env : GuessEnv) (s : AppState) : Bool :=
  s.isGuessing ∨ ¬env.hasAddress = true ∨ ¬s.hasJoined = true ∨
  env.isZamaLoading ∨ ¬env.configured = true

/-- A click on the guess button: ignored while disabled. -/
def handleGuessClick (env : GuessEnv) (s : AppState) : AppState × List Effect :=
  if guessButtonDisabled env s = true then (s, []) else handleGuess env s

/-! ## Sample data for concrete instantiations -/

/-- A fresh, disconnected session. -/
def sBase : AppState :=
  { hasJoined := false, round := 0, guessValue := "", encryptedResult := none,
    lastDecryptedCipher := none, feedbackCode := none, isJoining := false,
    isGuessing := false, isDecrypting := false, statusMessage := none }

/-- A refresh environment whose three reads all succeed. -/
def refreshReadsOk : RefreshEnv :=
  { hasClient := true, hasAddress := true, configured := true,
    reads := some (true, 2, "0xabc") }

/-! ## Claim theorems -/

/-- C3: a refresh is atomic — when any of the three reads fails, the whole
state (every session field) is left exactly as it was, and when all three
succeed, `hasJoined`, `round` and the ciphertext handle are all updated to
the read values together. -/
theorem refresh_atomic (env : RefreshEnv) (s : AppState) (j : Bool) (r : Nat)
    (h : String) (hc : env.hasClient = true) (ha : env.hasAddress = true)
    (hk : env.configured = true) :
    (env.reads = none → (refreshPlayerData env s).1 = s) ∧
    (env.reads = some (j, r, h) →
      (refreshPlayerData env s).1.hasJoined = j ∧
      (refreshPlayerData env s).1.round = r ∧
      (refreshPlayerData env s).1.encryptedResult = some h) := by
  constructor
  · intro hr
    simp [refreshPlayerData, hc, ha, hk, hr]
  · intro hr
    simp only [refreshPlayerData, hc, ha, hk, hr]
    simp only [and_self, not_true_eq_false, if_false]
    split_ifs <;> simp

/-- Witness for C3 at a concrete failing read. -/
theorem refresh_atomic_witness :
    (refreshPlayerData
      { hasClient := true, hasAddress := true, configured := true, reads := none }
      sBase).1 = sBase :=
  (refresh_atomic
    { hasClient := true, hasAddress := true, configured := true, reads := none }
    sBase true 0 "" rfl rfl rfl).1 rfl

/-- C7: a successful refresh that observes the same ciphertext handle as
the stored one, with the account still joined, preserves the feedback code
and its source-cipher record exactly. -/
theorem refresh_same_handle_preserves (env : RefreshEnv) (s : AppState)
    (r : Nat) (h : String) (hc : env.hasClient = true)
    (ha : env.hasAddress = true) (hk : env.configured = true)
    (hr : env.reads = some (true, r, h)) (hp : s.encryptedResult = some h) :
    (refreshPlayerData env s).1.feedbackCode = s.feedbackCode ∧
    (refreshPlayerData env s).1.lastDecryptedCipher = s.lastDecryptedCipher := by
  simp [refreshPlayerData, hc, ha, hk, hr, hp]

/-- Witness for C7: feedback 2 for handle "0xabc" survives a refresh that
reads "0xabc" again. -/
theorem refresh_same_handle_preserves_witness :
    (refreshPlayerData refreshReadsOk
      { sBase with hasJoined := true, encryptedResult := some "0xabc",
                   lastDecryptedCipher := some "0xabc",
                   feedbackCode := some 2 }).1.feedbackCode = some 2 ∧
    (refreshPlayerData refreshReadsOk
      { sBase with hasJoined := true, encryptedResult := some "0xabc",
                   lastDecryptedCipher := some "0xabc",
                   feedbackCode := some 2 }).1.lastDecryptedCipher = some "0xabc" :=
  refresh_same_handle_preserves refreshReadsOk
    { sBase with hasJoined := true, encryptedResult := some "0xabc",
                 lastDecryptedCipher := some "0xabc", feedbackCode := some 2 }
    2 "0xabc" rfl rfl rfl rfl rfl

/-- C8: after any successful refresh whose `hasJoined` read returns false,
the feedback code and the last-decrypted-cipher record are both null,
whatever the ciphertext handle read. -/
theorem refresh_not_joined_clears (env : RefreshEnv) (s : AppState)
    (r : Nat) (h : String) (hc : env.hasClient = true)
    (ha : env.hasAddress = true) (hk : env.configured = true)
    (hr : env.reads = some (false, r, h)) :
    (refreshPlayerData env s).1.feedbackCode = none ∧
    (refreshPlayerData env s).1.lastDecryptedCipher = none := by
  simp only [refreshPlayerData, hc, ha, hk, hr]
  simp only [and_self, not_true_eq_false, if_false]
  split_ifs <;> simp_all

/-- Witness for C8 at concrete reads with a live handle. -/
theorem refresh_not_joined_clears_witness :
    (refreshPlayerData
      { hasClient := true, hasAddress := true, configured := true,
        reads := some (false, 3, "0xdef") }
      { sBase with hasJoined := true, encryptedResult := some "0xdef",
                   feedbackCode := some 1,
                   lastDecryptedCipher := some "0xdef" }).1.feedbackCode = none ∧
    (refreshPlayerData
      { hasClient := true, hasAddress := true, configured := true,
        reads := some (false, 3, "0xdef") }
      { sBase with hasJoined := true, encryptedResult := some "0xdef",
                   feedbackCode := some 1,
                   lastDecryptedCipher := some "0xdef" }).1.lastDecryptedCipher = none :=
  refresh_not_joined_clears
    { hasClient := true, hasAddress := true, configured := true,
      reads := some (false, 3, "0xdef") }
    { sBase with hasJoined := true, encryptedResult := some "0xdef",
                 feedbackCode := some 1, lastDecryptedCipher := some "0xdef" }
    3 "0xdef" rfl rfl rfl rfl

/-- C4: on a successful refresh, a handle change (structural comparison
with the stored previous handle) clears the stored feedback and its source
cipher, and the "result ready" notification fires exactly when the new
handle is truthy (non-null) and differs from the all-zero sentinel; a
refresh reading the sentinel handle never emits the notification and never
sets a feedback code that was not already there. -/
theorem refresh_change_detection (env : RefreshEnv) (s : AppState) (j : Bool)
    (r : Nat) (h : String) (hc : env.hasClient = true)
    (ha : env.hasAddress = true) (hk : env.configured = true) :
    (env.reads = some (j, r, h) → s.encryptedResult ≠ some h →
      (refreshPlayerData env s).1.feedbackCode = none ∧
      (refreshPlayerData env s).1.lastDecryptedCipher = none ∧
      (Effect.notifyReady ∈ (refreshPlayerData env s).2 ↔
        (h ≠ "" ∧ h ≠ ZERO_CIPHERTEXT))) ∧
    (env.reads = some (j, r, ZERO_CIPHERTEXT) →
      Effect.notifyReady ∉ (refreshPlayerData env s).2 ∧
      ((refreshPlayerData env s).1.feedbackCode = s.feedbackCode ∨
       (refreshPlayerData env s).1.feedbackCode = none)) := by
  constructor
  · intro hr hne
    simp only [refreshPlayerData, hc, ha, hk, hr]
    simp only [and_self, not_true_eq_false, if_false]
    split_ifs with h1 h2 h3 <;> simp_all <;> tauto
  · intro hr
    simp only [refreshPlayerData, hc, ha, hk, hr]
    simp only [and_self, not_true_eq_false, if_false]
    split_ifs with h1 h2 h3 <;> simp_all

/-- Witness for C4: a change to a live handle clears feedback and fires the
notification. -/
theorem refresh_change_detection_witness :
    (refreshPlayerData refreshReadsOk
      { sBase with hasJoined := true, encryptedResult := some "0xold",
                   feedbackCode := some 4,
                   lastDecryptedCipher := some "0xold" }).1.feedbackCode = none ∧
    (refreshPlayerData refreshReadsOk
      { sBase with hasJoined := true, encryptedResult := some "0xold",
                   feedbackCode := some 4,
                   lastDecryptedCipher := some "0xold" }).1.lastDecryptedCipher = none ∧
    (Effect.notifyReady ∈ (refreshPlayerData refreshReadsOk
      { sBase with hasJoined := true, encryptedResult := some "0xold",
                   feedbackCode := some 4,
                   lastDecryptedCipher := some "0xold" }).2 ↔
      ("0xabc" ≠ "" ∧ "0xabc" ≠ ZERO_CIPHERTEXT)) :=
  (refresh_change_detection refreshReadsOk
    { sBase with hasJoined := true, encryptedResult := some "0xold",
                 feedbackCode := some 4, lastDecryptedCipher := some "0xold" }
    true 2 "0xabc" rfl rfl rfl).1 rfl (by decide)

/-- C9: when the encryption instance, the account address or the
configured contract address is absent, `decryptCiphertext` returns
immediately with the state unchanged — no status message, no effect of any
kind — whereas the analogous precondition failures of `handleJoin` and
`handleGuess` do set a user-visible status message. -/
theorem decrypt_silent_noop (env env2 : DecryptEnv) (c c2 : String)
    (s w : AppState) (envJ : JoinEnv) (envG : GuessEnv) (t u : AppState)
    (hm : ¬(env.hasInstance = true ∧ env.hasAddress = true ∧ env.configured = true)) :
    decryptCiphertext env c s = (s, []) ∧
    (envJ.hasAddress = false →
      handleJoin envJ t = ({ t with statusMessage := some walletJoinMsg }, [])) ∧
    (envG.hasAddress = false →
      handleGuess envG u = ({ u with statusMessage := some walletGuessMsg }, [])) ∧
    (env2.hasInstance = true → env2.hasAddress = true → env2.configured = true →
      env2.signerAvailable = false → w.isDecrypting = false →
      (decryptCiphertext env2 c2 w).1.statusMessage = some signerMsg) := by
  refine ⟨by simp [decryptCiphertext, hm], fun hj => ?_, fun hg => ?_,
          fun hi2 ha2 hk2 hs2 hw2 => ?_⟩
  · simp [handleJoin, hj]
  · simp [handleGuess, hg]
  · simp [decryptCiphertext, hi2, ha2, hk2, hw2, decryptRest, hs2]

/-- Witness for C9: no instance, all other inputs live; the state (feedback
present, a status already on screen) is returned bit for bit. -/
theorem decrypt_silent_noop_witness :
    decryptCiphertext
      { hasInstance := false, hasAddress := true, configured := true,
        signerAvailable := true, response := some [("0xabc", "2")] }
      "0xabc"
      { sBase with encryptedResult := some "0xabc", statusMessage := some "x" } =
      ({ sBase with encryptedResult := some "0xabc", statusMessage := some "x" }, []) ∧
    handleJoin
      { hasAddress := false, configured := true, signerAvailable := true,
        txSubmits := true, txConfirms := true, errMsg := "e",
        isZamaLoading := false, refresh := refreshReadsOk } sBase =
      ({ sBase with statusMessage := some walletJoinMsg }, []) :=
  ⟨(decrypt_silent_noop
      { hasInstance := false, hasAddress := true, configured := true,
        signerAvailable := true, response := some [("0xabc", "2")] }
      { hasInstance := true, hasAddress := true, configured := true,
        signerAvailable := false, response := none }
      "0xabc" "0xabc"
      { sBase with encryptedResult := some "0xabc", statusMessage := some "x" }
      sBase
      { hasAddress := false, configured := true, signerAvailable := true,
        txSubmits := true, txConfirms := true, errMsg := "e",
        isZamaLoading := false, refresh := refreshReadsOk }
      { hasAddress := false, configured := true, hasInstance := true,
        signerAvailable := true, encryptOk := true, txSubmits := true,
        txConfirms := true, errMsg := "e", isZamaLoading := false,
        refresh := refreshReadsOk }
      sBase sBase (by decide)).1,
   (decrypt_silent_noop
      { hasInstance := false, hasAddress := true, configured := true,
        signerAvailable := true, response := some [("0xabc", "2")] }
      { hasInstance := true, hasAddress := true, configured := true,
        signerAvailable := false, response := none }
      "0xabc" "0xabc"
      { sBase with encryptedResult := some "0xabc", statusMessage := some "x" }
      sBase
      { hasAddress := false, configured := true, signerAvailable := true,
        txSubmits := true, txConfirms := true, errMsg := "e",
        isZamaLoading := false, refresh := refreshReadsOk }
      { hasAddress := false, configured := true, hasInstance := true,
        signerAvailable := true, encryptOk := true, txSubmits := true,
        txConfirms := true, errMsg := "e", isZamaLoading := false,
        refresh := refreshReadsOk }
      sBase sBase (by decide)).2.1 rfl⟩

/-- C1: `handleGuess` submits the `submitGuess` transaction — indeed,
performs any network interaction at all — only when the session shows
`hasJoined` and the input validates as an integer in `[1, 10]`; with
wallet, configuration and a joined session present, an invalid input makes
the handler set the invalid-range status and return with no effect. -/
theorem guess_gate (env : GuessEnv) (s : AppState) :
    (Effect.guessTx ∈ (handleGuess env s).2 →
      s.hasJoined = true ∧ guessValid s.guessValue = true) ∧
    ((handleGuess env s).2 ≠ [] →
      s.hasJoined = true ∧ guessValid s.guessValue = true) ∧
    (env.hasAddress = true → env.configured = true → s.hasJoined = true →
      guessValid s.guessValue = false →
      handleGuess env s = ({ s with statusMessage := some invalidGuessMsg }, [])) := by
  unfold handleGuess
  split_ifs with h1 h2 h3 h4 h5 <;>
    refine ⟨fun hm => ?_, fun hn => ?_, fun ha hk hj hv => ?_⟩ <;>
    simp_all

/-- Witness for C1: a joined session guessing "3.5" is turned away with the
invalid-range message and no network call. -/
theorem guess_gate_witness :
    handleGuess
      { hasAddress := true, configured := true, hasInstance := true,
        signerAvailable := true, encryptOk := true, txSubmits := true,
        txConfirms := true, errMsg := "e", isZamaLoading := false,
        refresh := refreshReadsOk }
      { sBase with hasJoined := true, guessValue := "3.5" } =
      ({ sBase with hasJoined := true, guessValue := "3.5",
                    statusMessage := some invalidGuessMsg }, []) :=
  (guess_gate
    { hasAddress := true, configured := true, hasInstance := true,
      signerAvailable := true, encryptOk := true, txSubmits := true,
      txConfirms := true, errMsg := "e", isZamaLoading := false,
      refresh := refreshReadsOk }
    { sBase with hasJoined := true, guessValue := "3.5" }).2.2
    rfl rfl rfl (by decide)

/-- C2: join and guess are single-flight per operation kind at the level of
their only call sites, the two buttons: the busy flag raised by the
operation's synchronous prefix disables the button, so a click that arrives
while the flag is up — in particular right after the prefix of a first
call — is ignored with no state change and no transaction. -/
theorem single_flight_busy (envJ envJ2 : JoinEnv) (envG envG2 : GuessEnv)
    (s t : AppState) :
    (s.isJoining = true → handleJoinClick envJ s = (s, [])) ∧
    (t.isGuessing = true → handleGuessClick envG t = (t, [])) ∧
    (joinStart s).isJoining = true ∧ (guessStart t).isGuessing = true ∧
    handleJoinClick envJ2 (joinStart s) = (joinStart s, []) ∧
    handleGuessClick envG2 (guessStart t) = (guessStart t, []) := by
  refine ⟨fun hj => ?_, fun hg => ?_, rfl, rfl, ?_, ?_⟩
  · simp [handleJoinClick, joinButtonDisabled, hj]
  · simp [handleGuessClick, guessButtonDisabled, hg]
  · simp [handleJoinClick, joinButtonDisabled, joinStart]
  · simp [handleGuessClick, guessButtonDisabled, guessStart]

/-- Witness for C2 at a concrete mid-flight state. -/
theorem single_flight_busy_witness :
    handleJoinClick
      { hasAddress := true, configured := true, signerAvailable := true,
        txSubmits := true, txConfirms := true, errMsg := "e",
        isZamaLoading := false, refresh := refreshReadsOk }
      { sBase with isJoining := true } = ({ sBase with isJoining := true }, []) :=
  (single_flight_busy
    { hasAddress := true, configured := true, signerAvailable := true,
      txSubmits := true, txConfirms := true, errMsg := "e",
      isZamaLoading := false, refresh := refreshReadsOk }
    { hasAddress := true, configured := true, signerAvailable := true,
      txSubmits := true, txConfirms := true, errMsg := "e",
      isZamaLoading := false, refresh := refreshReadsOk }
    { hasAddress := true, configured := true, hasInstance := true,
      signerAvailable := true, encryptOk := true, txSubmits := true,
      txConfirms := true, errMsg := "e", isZamaLoading := false,
      refresh := refreshReadsOk }
    { hasAddress := true, configured := true, hasInstance := true,
      signerAvailable := true, encryptOk := true, txSubmits := true,
      txConfirms := true, errMsg := "e", isZamaLoading := false,
      refresh := refreshReadsOk }
    { sBase with isJoining := true } sBase).1 rfl

/-- The body of a decrypt call performs the sign request and exactly one
authority request when the signer resolves, and nothing when it does not:
every branch after the two awaits returns the same effect list. -/
theorem decryptRest_events (env : DecryptEnv) (c : String) (t : AppState) :
    (decryptRest env c t).2 =
      if env.signerAvailable = true then [Effect.signRequest, Effect.authorityRequest]
      else [] := by
  by_cases hsa : env.signerAvailable = true
  · simp only [decryptRest, hsa, not_true_eq_false, if_false, if_true]
    cases hx : extractRaw env.response c with
    | none => simp
    | some v =>
      by_cases hv : v = ""
      · simp [hv]
      · cases hq : jsStringToNumber v with
        | none => simp [hv, hq]
        | some q => by_cases hqi : q.isInt = true <;> simp [hv, hq, hqi]
  · simp [decryptRest, hsa]

/-- C5: decrypt is mutually exclusive — a call arriving while
`isDecrypting` is up is a no-op with no effect; the synchronous prefix of a
first call raises the flag, so a second call issued in quick succession
(observing the prefix state) is a no-op, and the whole pair performs
exactly one decryption-authority request. -/
theorem decrypt_single_flight (env env2 : DecryptEnv) (c c2 : String)
    (s : AppState) :
    (s.isDecrypting = true → decryptCiphertext env c s = (s, [])) ∧
    (decryptStart s).isDecrypting = true ∧
    decryptCiphertext env2 c2 (decryptStart s) = (decryptStart s, []) ∧
    (env.hasInstance = true → env.hasAddress = true → env.configured = true →
      s.isDecrypting = false → env.signerAvailable = true →
      decryptCiphertext env c s = decryptRest env c (decryptStart s) ∧
      ((decryptRest env c (decryptStart s)).2.count Effect.authorityRequest) = 1) := by
  refine ⟨fun hb => ?_, rfl, ?_, fun hi ha hk hb hs => ⟨?_, ?_⟩⟩
  · simp [decryptCiphertext, hb]
  · by_cases hp : env2.hasInstance = true ∧ env2.hasAddress = true ∧ env2.configured = true
    · simp [decryptCiphertext, hp, decryptStart]
    · simp [decryptCiphertext, hp]
  · simp [decryptCiphertext, hi, ha, hk, hb]
  · rw [decryptRest_events]
    simp [hs]

/-- Witness for C5: a busy session ignores a decrypt call outright. -/
theorem decrypt_single_flight_witness :
    decryptCiphertext
      { hasInstance := true, hasAddress := true, configured := true,
        signerAvailable := true, response := some [("0xabc", "2")] }
      "0xabc" { sBase with isDecrypting := true } =
      ({ sBase with isDecrypting := true }, []) :=
  (decrypt_single_flight
    { hasInstance := true, hasAddress := true, configured := true,
      signerAvailable := true, response := some [("0xabc", "2")] }
    { hasInstance := true, hasAddress := true, configured := true,
      signerAvailable := true, response := some [("0xabc", "2")] }
    "0xabc" "0xabc" { sBase with isDecrypting := true }).1 rfl

/-- C6: decrypt extracts the plaintext by keyed lookup on the requested
handle, falling back to the first value of the response when the lookup
misses; when nothing usable is extracted, or the extracted string is not an
integer, the failure is caught and surfaced as a status message with no
feedback stored; on success the parsed integer is stored as the feedback
code together with the decrypted cipher handle. -/
theorem decrypt_extraction (env : DecryptEnv) (c v : String) (s : AppState)
    (l : List (String × String)) (n : Int)
    (hi : env.hasInstance = true) (ha : env.hasAddress = true)
    (hk : env.configured = true) (hs : env.signerAvailable = true)
    (hb : s.isDecrypting = false) :
    (env.response = some l → objLookup l c = some v → v ≠ "" →
      extractRaw env.response c = some v) ∧
    (env.response = some l → objLookup l c = none →
      extractRaw env.response c = (l.map (fun e => e.2)).head?) ∧
    (extractRaw env.response c = none →
      (decryptCiphertext env c s).1.statusMessage = some noValueMsg ∧
      (decryptCiphertext env c s).1.feedbackCode = s.feedbackCode ∧
      (decryptCiphertext env c s).1.lastDecryptedCipher = s.lastDecryptedCipher) ∧
    (extractRaw env.response c = some v → v ≠ "" → jsNumberInt v = none →
      (decryptCiphertext env c s).1.statusMessage = some badFormatMsg ∧
      (decryptCiphertext env c s).1.feedbackCode = s.feedbackCode ∧
      (decryptCiphertext env c s).1.lastDecryptedCipher = s.lastDecryptedCipher) ∧
    (extractRaw env.response c = some v → v ≠ "" → jsNumberInt v = some n →
      (decryptCiphertext env c s).1.feedbackCode = some n ∧
      (decryptCiphertext env c s).1.lastDecryptedCipher = some c ∧
      (decryptCiphertext env c s).1.statusMessage = some decryptOkMsg) := by
  have hpass : decryptCiphertext env c s = decryptRest env c (decryptStart s) := by
    simp [decryptCiphertext, hi, ha, hk, hb]
  refine ⟨fun hr hl hv => ?_, fun hr hl => ?_, fun hx => ?_, fun hx hv hn => ?_,
          fun hx hv hn => ?_⟩
  · simp [extractRaw, hr, hl, hv]
  · simp [extractRaw, hr, hl]
  · rw [hpass]
    simp [decryptRest, hs, hx, decryptStart]
  · rw [hpass]
    cases hq : jsStringToNumber v with
    | none => simp [decryptRest, hs, hx, hv, hq, decryptStart]
    | some q =>
      have hqi : q.isInt = false := by simpa [jsNumberInt, hq] using hn
      simp [decryptRest, hs, hx, hv, hq, hqi, decryptStart]
  · rw [hpass]
    cases hq : jsStringToNumber v with
    | none => simp [jsNumberInt, hq] at hn
    | some q =>
      by_cases hqi : q.isInt = true
      · have hval : q.toInt = n := by simpa [jsNumberInt, hq, hqi] using hn
        simp [decryptRest, hs, hx, hv, hq, hqi, hval, decryptStart]
      · exact absurd hn (by simp [jsNumberInt, hq, hqi])

/-- Witness for C6: the authority answers for a different key, the fallback
takes the first value "2", and feedback 2 is stored for the requested
handle. -/
theorem decrypt_extraction_witness :
    (decryptCiphertext
      { hasInstance := true, hasAddress := true, configured := true,
        signerAvailable := true, response := some [("0xother", "2")] }
      "0xabc" sBase).1.feedbackCode = some 2 ∧
    (decryptCiphertext
      { hasInstance := true, hasAddress := true, configured := true,
        signerAvailable := true, response := some [("0xother", "2")] }
      "0xabc" sBase).1.lastDecryptedCipher = some "0xabc" ∧
    (decryptCiphertext
      { hasInstance := true, hasAddress := true, configured := true,
        signerAvailable := true, response := some [("0xother", "2")] }
      "0xabc" sBase).1.statusMessage = some decryptOkMsg :=
  (decrypt_extraction
    { hasInstance := true, hasAddress := true, configured := true,
      signerAvailable := true, response := some [("0xother", "2")] }
    "0xabc" "2" sBase [("0xother", "2")] 2
    rfl rfl rfl rfl rfl).2.2.2.2 (by decide) (by decide) (by decide)

/-- C10: the guess input is validated by trimming the raw string and
converting it with JavaScript `Number` semantics — a string is accepted
exactly when its trimmed conversion is an integer in `[1, 10]`, which
admits non-decimal-digit forms such as "7.0", " 7 " and "0x7", while the
empty string converts to `0` and is rejected as out of range. -/
theorem guess_numeric_semantics :
    guessValid "7.0" = true ∧ guessValid " 7 " = true ∧ guessValid "0x7" = true ∧
    jsStringToNumber (jsTrim "") = some ⟨0, 1⟩ ∧ guessValid "" = false ∧
    (∀ w : String, guessValid w = true ↔
      ∃ n : Int, jsNumberInt (jsTrim w) = some n ∧ 1 ≤ n ∧ n ≤ 10) := by
  refine ⟨by decide, by decide, by decide, by decide, by decide, fun w => ?_⟩
  unfold guessValid jsNumberInt
  cases hq : jsStringToNumber (jsTrim w) with
  | none => simp
  | some q =>
    by_cases hqi : q.isInt = true
    · simp [hqi]
    · simp [hqi]

end NumberSeeker
